import Mathlib

/-!
Shallow embedding of the Vucciaro Amazon deal bot (`src/main.py`) and
verification of the frozen claims about its specification.

Modelling conventions:
* Python numbers become `Int` / `ℚ` (Python floats are modelled exactly by
  rationals; every operation the pipeline performs — division by 10 or 100,
  comparisons against fixed thresholds — is sign- and order-faithful there).
* Timestamps and durations are rationals measured in hours, matching the
  code's exclusive use of `timedelta(hours=...)`.
* A Python value that may be `None` becomes an `Option`.
* Python `dict.get(k, d)` with a falsy default is modelled by a plain field
  whose "missing" encoding is the default value, and Python truthiness
  (`if not x`) is modelled by the corresponding `= 0` / `= none` / `= ""` test.
* The SQLite tables become functions: `posted_products` is
  `String → Option ℚ` (asin ↦ posted_at; the unread title/price/discount
  columns are omitted) and `keepa_cache` is
  `String → Option (ℚ × List Candidate)` (key ↦ (cached_at, data)).
* External collaborators (network fetch results, the Telegram send outcome,
  the random draw of `random.randint(1, 100)`) are parameters of the
  orchestrator functions.
-/

namespace Vucciaro

/-! ### Configuration (`main.py` lines 64-82, default environment values) -/

def POST_INTERVAL_MINUTES : Int := 20

def START_HOUR : Int := 7

def END_HOUR : Int := 23

def LIGHTNING_PERCENTAGE : Int := 70

def MIN_DISCOUNT : Int := 15

/-- `MIN_RATING = float(os.getenv('MIN_RATING', '3.5'))`. -/
def MIN_RATING : ℚ := 7/2

def MIN_REVIEWS : Int := 10

def MIN_PRICE : Int := 500

def MAX_PRICE : Int := 40000

/-- `CATEGORY_MAP` (`main.py` 79-82); `dict.get(channel, [])` is the default. -/
def CATEGORY_MAP (channel : String) : List Int :=
  if channel = "tech" then [412609031, 1497228031, 473257031, 425916031]
  else if channel = "moda" then [5515768031, 5515769031, 26039478031]
  else []

/-! ### Python numeric helpers -/

/-- Python `int(x)` on a float/rational: truncation toward zero. -/
def pyInt (q : ℚ) : Int := if 0 ≤ q then ⌊q⌋ else ⌈q⌉

/-- Python `round(x, 1)`: rounding to one decimal place.  In the code it is
only ever applied to exact multiples of `1/10`, where half-up rounding,
banker's rounding and the identity all agree, so the half-up form is a
faithful model. -/
def round1 (q : ℚ) : ℚ := (⌊q * 10 + 1/2⌋ : ℚ) / 10

/-- Modelled from the spec: the spec's `round((reference - current) /
reference * 100)` derives the discount by rounding to the *nearest* integer.
This definition follows the spec's words (half-up nearest rounding) and is
compared against the code's `pyInt` truncation. -/
def roundNearest (q : ℚ) : Int := ⌊q + 1/2⌋

/-! ### Raw upstream records (`KeepaClient` parsing inputs) -/

/-- One element of the `lightningDeals` array.  Fields are read with
`deal.get(...)`; a missing numeric field is its falsy default, a missing
`asin`/`image` is `none`. -/
structure RawLightningDeal where
  asin : Option String
  title : String
  dealState : String
  dealPrice : Int
  currentPrice : Int
  percentOff : Int
  rating : Int
  totalReviews : Int
  image : Option String
  endTime : Int
  percentClaimed : Int
  isPrimeEligible : Bool
deriving DecidableEq

/-- One element of the `deals.dr` array.  `c0`/`c1` are `current[0]` and
`current[1]` (`none` models a JSON `null` slot; a record whose `current`
array is shorter than two raises `IndexError` in Python and is skipped by
the per-item `except`, so it never produces a candidate and is outside this
model). -/
structure RawBrowseDeal where
  asin : Option String
  title : String
  c0 : Option Int
  c1 : Option Int
  rating : Int
  reviewCount : Int
  imagesCSV : String
deriving DecidableEq

/-! ### Canonical parsed candidate (the dicts built at `main.py` 289-302 and
333-346) -/

structure Candidate where
  asin : Option String
  title : String
  /-- major units: the minor-unit price divided by 100. -/
  current_price : ℚ
  list_price : ℚ
  discount_percent : Int
  rating : ℚ
  review_count : Int
  image_url : Option String
  is_lightning : Bool
  hours_left : Option ℚ
  percent_claimed : Option Int
  is_prime : Bool
deriving DecidableEq

/-! ### Parsing (`KeepaClient._parse_lightning_deals`, `_parse_browsing_deals`) -/

/-- The local `rating = deal.get('rating', 0) / 10.0 if deal.get('rating')
else 0` computed by both parsers (`main.py` 278 and 327). -/
def ratingOf (r : Int) : ℚ := if r ≠ 0 then (r : ℚ) / 10 else 0

/-- The local `hours_left = (end_time - now) / (1000*60*60) if end_time > now
else 0` (`main.py` 286). -/
def hoursLeft (now endTime : Int) : ℚ :=
  if now < endTime then ((endTime : ℚ) - now) / (1000 * 60 * 60) else 0

/-- `_parse_lightning_deals` body for one deal (`main.py` 259-302); `now` is
`int(time.time() * 1000)`.  Returns `none` exactly where the Python `continue`s. -/
def parseLightningDeal (now : Int) (deal : RawLightningDeal) : Option Candidate :=
  if deal.dealState ≠ "AVAILABLE" ∧ deal.dealState ≠ "WAITLIST" then none
  else if deal.dealPrice = 0 ∨ deal.currentPrice = 0 then none
  else if deal.percentOff < MIN_DISCOUNT then none
  else if ratingOf deal.rating < MIN_RATING ∨ deal.totalReviews < MIN_REVIEWS then none
  else
    some
      { asin := deal.asin
        title := deal.title.trim
        current_price := (deal.dealPrice : ℚ) / 100
        list_price := (deal.currentPrice : ℚ) / 100
        discount_percent := deal.percentOff
        rating := round1 (ratingOf deal.rating)
        review_count := deal.totalReviews
        image_url := deal.image
        is_lightning := true
        hours_left := some (round1 (hoursLeft now deal.endTime))
        percent_claimed := some deal.percentClaimed
        is_prime := deal.isPrimeEligible }

def parse_lightning_deals (now : Int) (raw : List RawLightningDeal) : List Candidate :=
  raw.filterMap (parseLightningDeal now)

/-- `imagesCSV` handling of `main.py` 341. -/
def browseImageUrl (imagesCSV : String) : Option String :=
  if imagesCSV = "" then none
  else some ("https://images-na.ssl-images-amazon.com/images/I/"
    ++ (imagesCSV.splitOn ",").headD "")

/-- The local `discount_percent = int(((list_price - current_price) /
list_price) * 100)` (`main.py` 322): Python `int` truncates toward zero. -/
def browseDiscount (cp lp : Int) : Int := pyInt ((((lp : ℚ) - cp) / lp) * 100)

/-- `_parse_browsing_deals` body for one deal (`main.py` 314-346). -/
def parseBrowseDeal (deal : RawBrowseDeal) : Option Candidate :=
  match deal.c0, deal.c1 with
  | some cp, some lp =>
    if cp = 0 ∨ lp = 0 ∨ lp ≤ cp then none
    else if browseDiscount cp lp < MIN_DISCOUNT then none
    else if ratingOf deal.rating < MIN_RATING ∨ deal.reviewCount < MIN_REVIEWS then none
    else
      some
        { asin := deal.asin
          title := deal.title.trim
          current_price := (cp : ℚ) / 100
          list_price := (lp : ℚ) / 100
          discount_percent := browseDiscount cp lp
          rating := round1 (ratingOf deal.rating)
          review_count := deal.reviewCount
          image_url := browseImageUrl deal.imagesCSV
          is_lightning := false
          hours_left := none
          percent_claimed := none
          is_prime := false }
  | _, _ => none

def parse_browsing_deals (raw : List RawBrowseDeal) : List Candidate :=
  raw.filterMap parseBrowseDeal

/-- The Keepa `/deal` selection object built by `fetch_browsing_deals`
(`main.py` 213-229); only the numeric-filter fields the claims mention. -/
structure BrowseQuery where
  page : Int
  domainId : Int
  includeCategories : List Int
  deltaPercentRange : List Int
  currentRange : List Int
  minRating : Int
  sortType : Int
deriving DecidableEq

def browsingQuery (category_ids : List Int) : BrowseQuery :=
  { page := 0
    domainId := 8
    includeCategories := category_ids
    deltaPercentRange := [MIN_DISCOUNT, 100]
    currentRange := [MIN_PRICE, MAX_PRICE]
    minRating := pyInt (MIN_RATING * 10)
    sortType := 4 }

/-! ### Deduplication ledger (`posted_products` table; `is_product_posted`,
`mark_as_posted`, `main.py` 118-139) -/

/-- The `posted_products` table, abstracted to the two columns the queries
read: `asin ↦ posted_at` (hours). -/
def Ledger := String → Option ℚ

def emptyLedger : Ledger := fun _ => none

/-- `is_product_posted(asin, hours)` at wall-clock time `now`: a row for
`asin` exists with `posted_at > now - hours`.  The SQL `asin = ?` equality
never matches when the bound parameter is `NULL`, hence the `none` branch. -/
def is_product_posted (ledger : Ledger) (asin : Option String) (hours now : ℚ) : Bool :=
  match asin with
  | none => false
  | some a =>
    match ledger a with
    | none => false
    | some t => decide (now - hours < t)

/-- `mark_as_posted` (`INSERT OR REPLACE`); `posted_at` takes the column
default `CURRENT_TIMESTAMP`, i.e. the insertion time `t`.  A `NULL` asin
would insert a row the equality lookup can never see, so it is observably
a no-op for `is_product_posted`. -/
def mark_as_posted (ledger : Ledger) (asin : Option String) (t : ℚ) : Ledger :=
  match asin with
  | none => ledger
  | some a => fun x => if x = a then some t else ledger x

/-! ### Keepa response cache (`keepa_cache` table; `get_cached_data`,
`cache_data`, `main.py` 141-166) -/

/-- The `keepa_cache` table: `cache_key ↦ (cached_at, data)`. -/
def Cache := String → Option (ℚ × List Candidate)

def emptyCache : Cache := fun _ => none

def get_cached_data (cache : Cache) (cache_key : String) (max_age_hours now : ℚ) :
    Option (List Candidate) :=
  match cache cache_key with
  | none => none
  | some (t, d) => if now - max_age_hours < t then some d else none

def cache_data (cache : Cache) (cache_key : String) (d : List Candidate) (now : ℚ) : Cache :=
  fun k => if k = cache_key then some (now, d) else cache k

/-! ### Orchestrator (`VucciaroSystem`, `main.py` 493-608) -/

/-- The external fetch outcomes for one cycle: what
`keepa.fetch_lightning_deals()` would return and what
`keepa.fetch_browsing_deals(category_ids)` would return (both already
parsed; a failed HTTP call is the empty list, `main.py` 206-208, 250-252). -/
structure FetchEnv where
  lightningResult : List Candidate
  browsingResult : List Int → List Candidate

/-- `fetch_deals_for_channel` (`main.py` 508-545).  `draw` is the result of
`random.randint(1, 100)`; lightning mode is chosen when
`draw ≤ LIGHTNING_PERCENTAGE`.  Returns the deals together with the
possibly-updated cache. -/
def fetch_deals_for_channel (env : FetchEnv) (cache : Cache) (now : ℚ) (draw : Int)
    (channel : String) : List Candidate × Cache :=
  if draw ≤ LIGHTNING_PERCENTAGE then
    match get_cached_data cache "lightning_deals" (1/2) now with
    | some cached => (cached, cache)
    | none =>
      let deals := env.lightningResult
      if deals = [] then (deals, cache)
      else (deals, cache_data cache "lightning_deals" deals now)
  else
    let category_ids := CATEGORY_MAP channel
    if category_ids = [] then ([], cache)
    else
      match get_cached_data cache ("browsing_" ++ channel) 2 now with
      | some cached => (cached, cache)
      | none =>
        let deals := env.browsingResult category_ids
        if deals = [] then (deals, cache)
        else (deals, cache_data cache ("browsing_" ++ channel) deals now)

/-- The composite score of `select_best_deal` (`main.py` 550-563).  The
Python guard `deal.get('hours_left') and deal['hours_left'] < 3` tests
truthiness, so `none` and `0` both fail it. -/
def score (d : Candidate) : ℚ :=
  let s := (d.discount_percent : ℚ) * (4/10) + d.rating * 5
    + min ((d.review_count : ℚ) / 10) 50
  if d.is_lightning then
    let s := s + 20
    match d.hours_left with
    | some h => if h ≠ 0 ∧ h < 3 then s + 30 else s
    | none => s
  else s

/-- Stable insertion step for a descending sort: `x` (originally earlier
than everything in the tail) goes before the first element whose score does
not exceed it, matching the stability of Python `sorted(key=score,
reverse=True)`. -/
def insertDesc (x : Candidate) : List Candidate → List Candidate
  | [] => [x]
  | y :: ys => if score y ≤ score x then x :: y :: ys else y :: insertDesc x ys

def sortByScoreDesc (l : List Candidate) : List Candidate :=
  l.foldr insertDesc []

/-- `select_best_deal` (`main.py` 547-572): stable-sort by descending score,
then return the first deal not posted in the last 48 hours. -/
def select_best_deal (ledger : Ledger) (now : ℚ) (deals : List Candidate) :
    Option Candidate :=
  (sortByScoreDesc deals).find? (fun d => !is_product_posted ledger d.asin 48 now)

/-- The mutable system state carried between cycles (`VucciaroSystem`
fields plus the SQLite tables). -/
structure SysState where
  channel_rotation : List String
  current_channel_index : Nat
  ledger : Ledger
  cache : Cache

/-- Outcome of one `publish_next_deal` cycle.  `fetched` is true iff the
cycle passed the active-hours gate (and therefore ran the channel rotation
and `fetch_deals_for_channel`). -/
structure CycleResult where
  state : SysState
  fetched : Bool
  published : Option Candidate

/-- `publish_next_deal` (`main.py` 574-608).  `pubOk channel deal` is the
boolean outcome of `telegram.send_deal(deal, channel)`; `hour` is
`datetime.now().hour` and `now` the wall-clock time used by the database
functions. -/
def publish_next_deal (env : FetchEnv) (pubOk : String → Candidate → Bool)
    (hour : Int) (now : ℚ) (draw : Int) (st : SysState) : CycleResult :=
  if ¬(START_HOUR ≤ hour ∧ hour < END_HOUR) then ⟨st, false, none⟩
  else
    let channel := st.channel_rotation.getD st.current_channel_index ""
    let st1 : SysState :=
      { st with current_channel_index :=
          (st.current_channel_index + 1) % st.channel_rotation.length }
    let fc := fetch_deals_for_channel env st1.cache now draw channel
    let st2 : SysState := { st1 with cache := fc.2 }
    if fc.1 = [] then ⟨st2, true, none⟩
    else
      match select_best_deal st2.ledger now fc.1 with
      | none => ⟨st2, true, none⟩
      | some deal =>
        if pubOk channel deal then
          ⟨{ st2 with ledger := mark_as_posted st2.ledger deal.asin now }, true, some deal⟩
        else ⟨st2, true, none⟩

/-! ### Concrete sample data for counterexamples and witnesses -/

/-- A browse record with no `asin`, a negative `current[0]` slot and a raw
rating of 60: every client-side filter passes, yet the resulting candidate
violates all four spec invariants. -/
def c1rec : RawBrowseDeal :=
  { asin := none, title := "x", c0 := some (-100), c1 := some 100,
    rating := 60, reviewCount := 50, imagesCSV := "" }

/-- The candidate `c1rec` parses to. -/
def c1c : Candidate :=
  { asin := none, title := "x".trim, current_price := -1, list_price := 1,
    discount_percent := 200, rating := 6, review_count := 50,
    image_url := none, is_lightning := false, hours_left := none,
    percent_claimed := none, is_prime := false }

/-- A browse record with `current = [100, 300]`: exact discount is 66.67%. -/
def c2rec : RawBrowseDeal :=
  { asin := some "B2", title := "t", c0 := some 100, c1 := some 300,
    rating := 45, reviewCount := 50, imagesCSV := "" }

/-- The candidate `c2rec` parses to: the code truncates the discount to 66. -/
def c2c : Candidate :=
  { asin := some "B2", title := "t".trim, current_price := 1, list_price := 3,
    discount_percent := 66, rating := 45/10, review_count := 50,
    image_url := none, is_lightning := false, hours_left := none,
    percent_claimed := none, is_prime := false }

/-- A lightning deal priced at 100000 minor units (1000€), far above
`MAX_PRICE = 40000`; it passes every check of `_parse_lightning_deals`. -/
def c6rec : RawLightningDeal :=
  { asin := some "L1", title := "l", dealState := "AVAILABLE",
    dealPrice := 100000, currentPrice := 200000, percentOff := 50,
    rating := 45, totalReviews := 100, image := none, endTime := 0,
    percentClaimed := 0, isPrimeEligible := false }

/-- The candidate `c6rec` parses to. -/
def c6c : Candidate :=
  { asin := some "L1", title := "l".trim, current_price := 1000,
    list_price := 2000, discount_percent := 50, rating := 45/10,
    review_count := 100, image_url := none, is_lightning := true,
    hours_left := some 0, percent_claimed := some 0, is_prime := false }

/-- A well-formed lightning deal used to witness the parser theorems. -/
def wLrec : RawLightningDeal :=
  { asin := some "W1", title := "w", dealState := "AVAILABLE",
    dealPrice := 10000, currentPrice := 20000, percentOff := 50,
    rating := 45, totalReviews := 100, image := none, endTime := 0,
    percentClaimed := 0, isPrimeEligible := false }

/-- The candidate `wLrec` parses to. -/
def wLc : Candidate :=
  { asin := some "W1", title := "w".trim, current_price := 100,
    list_price := 200, discount_percent := 50, rating := 45/10,
    review_count := 100, image_url := none, is_lightning := true,
    hours_left := some 0, percent_claimed := some 0, is_prime := false }

/-- A well-formed browse record (the spec's end-to-end scenario A shape). -/
def wBrec : RawBrowseDeal :=
  { asin := some "X1", title := "w", c0 := some 1000, c1 := some 2000,
    rating := 45, reviewCount := 50, imagesCSV := "" }

/-- The candidate `wBrec` parses to. -/
def wBc : Candidate :=
  { asin := some "X1", title := "w".trim, current_price := 10, list_price := 20,
    discount_percent := 50, rating := 45/10, review_count := 50,
    image_url := none, is_lightning := false, hours_left := none,
    percent_claimed := none, is_prime := false }

/-- Score 20·0.4 + 5·5 + 0 = 33. -/
def selA : Candidate :=
  { asin := some "A", title := "a", current_price := 10, list_price := 20,
    discount_percent := 20, rating := 5, review_count := 0,
    image_url := none, is_lightning := false, hours_left := none,
    percent_claimed := none, is_prime := false }

/-- Score 30·0.4 + 4.2·5 + 0 = 33: ties with `selA` but has the higher
discount. -/
def selB : Candidate :=
  { asin := some "B", title := "b", current_price := 10, list_price := 20,
    discount_percent := 30, rating := 21/5, review_count := 0,
    image_url := none, is_lightning := false, hours_left := none,
    percent_claimed := none, is_prime := false }

/-- The product "X1" of the spec's scenario C, as a lightning candidate. -/
def X1c : Candidate :=
  { asin := some "X1", title := "x1", current_price := 10, list_price := 20,
    discount_percent := 50, rating := 45/10, review_count := 100,
    image_url := none, is_lightning := true, hours_left := some 5,
    percent_claimed := some 0, is_prime := false }

/-- Ledger where "X1" was published at time 0. -/
def ledger3 : Ledger := mark_as_posted emptyLedger (some "X1") 0

/-- System state at `t0 + 10h` with "X1" posted at `t0 = 0`. -/
def st3 : SysState :=
  { channel_rotation := ["tech", "moda"], current_channel_index := 0,
    ledger := ledger3, cache := emptyCache }

/-- Fetch environment whose lightning feed returns exactly "X1". -/
def env3 : FetchEnv := { lightningResult := [X1c], browsingResult := fun _ => [] }

/-- System state with an empty ledger and empty cache. -/
def wSt : SysState :=
  { channel_rotation := ["tech", "moda"], current_channel_index := 0,
    ledger := emptyLedger, cache := emptyCache }

/-- Fetch environment whose lightning feed returns exactly `selA`. -/
def wEnv : FetchEnv := { lightningResult := [selA], browsingResult := fun _ => [] }

/-- Environment where the lightning fetch failed (empty) but the browse feed
would have returned a candidate: used to show no mode fallback happens. -/
def env7 : FetchEnv := { lightningResult := [], browsingResult := fun _ => [selA] }

/-! ### Helper lemmas -/

theorem round1_div10 (r : Int) : round1 ((r : ℚ) / 10) = (r : ℚ) / 10 := by
  unfold round1
  rw [div_mul_cancel₀ _ (by norm_num : (10 : ℚ) ≠ 0), Int.floor_int_add]
  norm_num

theorem round1_zero : round1 0 = 0 := by
  unfold round1
  norm_num

theorem pyInt_of_nonneg {q : ℚ} (h : 0 ≤ q) : pyInt q = ⌊q⌋ := if_pos h

/-- The rating value computed by both parsers is an exact multiple of `1/10`,
so `round(·, 1)` fixes it. -/
theorem round1_ratingOf (r : Int) : round1 (ratingOf r) = ratingOf r := by
  unfold ratingOf
  by_cases hr : r ≠ 0
  · rw [if_pos hr]
    exact round1_div10 r
  · rw [if_neg hr]
    exact round1_zero

theorem ratingOf_le_five {r : Int} (h : r ≤ 50) : ratingOf r ≤ 5 := by
  unfold ratingOf
  by_cases hr : r ≠ 0
  · rw [if_pos hr]
    rw [div_le_iff₀ (by norm_num)]
    have hc : (r : ℚ) ≤ 50 := by exact_mod_cast h
    linarith
  · rw [if_neg hr]
    norm_num

/-- Inversion of a successful lightning parse: the fields of the produced
candidate and the filters it passed. -/
theorem parseLightningDeal_fields {now : Int} {deal : RawLightningDeal} {c : Candidate}
    (h : parseLightningDeal now deal = some c) :
    c.asin = deal.asin ∧
    c.discount_percent = deal.percentOff ∧ MIN_DISCOUNT ≤ deal.percentOff ∧
    c.current_price = (deal.dealPrice : ℚ) / 100 ∧ deal.dealPrice ≠ 0 ∧
    c.rating = ratingOf deal.rating ∧ MIN_RATING ≤ c.rating ∧
    c.review_count = deal.totalReviews ∧ MIN_REVIEWS ≤ deal.totalReviews := by
  unfold parseLightningDeal at h
  split at h
  · exact absurd h (by simp)
  next hstate =>
  split at h
  · exact absurd h (by simp)
  next hprice =>
  split at h
  · exact absurd h (by simp)
  next hdisc =>
  split at h
  · exact absurd h (by simp)
  next hqual =>
  push_neg at hprice hdisc hqual
  simp only [Option.some.injEq] at h
  subst h
  refine ⟨rfl, rfl, hdisc, rfl, hprice.1, round1_ratingOf _, ?_, rfl, hqual.2⟩
  show MIN_RATING ≤ round1 (ratingOf deal.rating)
  rw [round1_ratingOf]
  exact hqual.1

/-- Inversion of a successful browse parse. -/
theorem parseBrowseDeal_fields {deal : RawBrowseDeal} {c : Candidate}
    (h : parseBrowseDeal deal = some c) :
    ∃ cp lp : Int, deal.c0 = some cp ∧ deal.c1 = some lp ∧
    cp ≠ 0 ∧ lp ≠ 0 ∧ cp < lp ∧
    c.asin = deal.asin ∧
    c.discount_percent = browseDiscount cp lp ∧
    MIN_DISCOUNT ≤ c.discount_percent ∧
    c.current_price = (cp : ℚ) / 100 ∧
    c.rating = ratingOf deal.rating ∧ MIN_RATING ≤ c.rating ∧
    c.review_count = deal.reviewCount ∧ MIN_REVIEWS ≤ deal.reviewCount := by
  unfold parseBrowseDeal at h
  split at h
  case _ cp lp h0 h1 =>
    refine ⟨cp, lp, h0, h1, ?_⟩
    split at h
    · exact absurd h (by simp)
    next hnz =>
    split at h
    · exact absurd h (by simp)
    next hdisc =>
    split at h
    · exact absurd h (by simp)
    next hqual =>
    push_neg at hnz hdisc hqual
    simp only [Option.some.injEq] at h
    subst h
    refine ⟨hnz.1, hnz.2.1, hnz.2.2, rfl, rfl, hdisc, rfl, round1_ratingOf _, ?_, rfl, hqual.2⟩
    show MIN_RATING ≤ round1 (ratingOf deal.rating)
    rw [round1_ratingOf]
    exact hqual.1
  case _ =>
    exact absurd h (by simp)

/-! ### Evaluation lemmas for the sample data -/

theorem ratingOf_45 : ratingOf 45 = 45/10 := by norm_num [ratingOf]

theorem ratingOf_60 : ratingOf 60 = 6 := by norm_num [ratingOf]

theorem hoursLeft_00 : hoursLeft 0 0 = 0 := by simp [hoursLeft]

theorem browseDiscount_neg100_100 : browseDiscount (-100) 100 = 200 := by
  unfold browseDiscount pyInt
  rw [if_pos (by norm_num)]
  norm_num

theorem browseDiscount_100_300 : browseDiscount 100 300 = 66 := by
  unfold browseDiscount pyInt
  rw [if_pos (by norm_num)]
  rw [Int.floor_eq_iff]
  norm_num

theorem browseDiscount_1000_2000 : browseDiscount 1000 2000 = 50 := by
  unfold browseDiscount pyInt
  rw [if_pos (by norm_num)]
  norm_num

theorem c1rec_parses : parseBrowseDeal c1rec = some c1c := by
  unfold parseBrowseDeal c1rec
  dsimp only
  rw [if_neg (by decide)]
  rw [if_neg (by rw [browseDiscount_neg100_100]; decide)]
  rw [if_neg (by rw [ratingOf_60]; norm_num [MIN_RATING, MIN_REVIEWS])]
  unfold c1c
  rw [Option.some.injEq, Candidate.mk.injEq]
  refine ⟨rfl, rfl, by norm_num, by norm_num, browseDiscount_neg100_100, ?_, rfl,
    by simp [browseImageUrl], rfl, rfl, rfl, rfl⟩
  rw [round1_ratingOf, ratingOf_60]

theorem c2rec_parses : parseBrowseDeal c2rec = some c2c := by
  unfold parseBrowseDeal c2rec
  dsimp only
  rw [if_neg (by decide)]
  rw [if_neg (by rw [browseDiscount_100_300]; decide)]
  rw [if_neg (by rw [ratingOf_45]; norm_num [MIN_RATING, MIN_REVIEWS])]
  unfold c2c
  rw [Option.some.injEq, Candidate.mk.injEq]
  exact ⟨rfl, rfl, by norm_num, by norm_num, browseDiscount_100_300,
    by rw [round1_ratingOf, ratingOf_45], rfl, by simp [browseImageUrl], rfl, rfl, rfl, rfl⟩

theorem wBrec_parses : parseBrowseDeal wBrec = some wBc := by
  unfold parseBrowseDeal wBrec
  dsimp only
  rw [if_neg (by decide)]
  rw [if_neg (by rw [browseDiscount_1000_2000]; decide)]
  rw [if_neg (by rw [ratingOf_45]; norm_num [MIN_RATING, MIN_REVIEWS])]
  unfold wBc
  rw [Option.some.injEq, Candidate.mk.injEq]
  exact ⟨rfl, rfl, by norm_num, by norm_num, browseDiscount_1000_2000,
    by rw [round1_ratingOf, ratingOf_45], rfl, by simp [browseImageUrl], rfl, rfl, rfl, rfl⟩

theorem c6rec_parses : parseLightningDeal 0 c6rec = some c6c := by
  unfold parseLightningDeal c6rec
  dsimp only
  rw [if_neg (by decide)]
  rw [if_neg (by decide)]
  rw [if_neg (by decide)]
  rw [if_neg (by rw [ratingOf_45]; norm_num [MIN_RATING, MIN_REVIEWS])]
  unfold c6c
  rw [Option.some.injEq, Candidate.mk.injEq]
  exact ⟨rfl, rfl, by norm_num, by norm_num, rfl,
    by rw [round1_ratingOf, ratingOf_45], rfl, rfl, rfl,
    by rw [hoursLeft_00, round1_zero], rfl, rfl⟩

theorem wLrec_parses : parseLightningDeal 0 wLrec = some wLc := by
  unfold parseLightningDeal wLrec
  dsimp only
  rw [if_neg (by decide)]
  rw [if_neg (by decide)]
  rw [if_neg (by decide)]
  rw [if_neg (by rw [ratingOf_45]; norm_num [MIN_RATING, MIN_REVIEWS])]
  unfold wLc
  rw [Option.some.injEq, Candidate.mk.injEq]
  exact ⟨rfl, rfl, by norm_num, by norm_num, rfl,
    by rw [round1_ratingOf, ratingOf_45], rfl, rfl, rfl,
    by rw [hoursLeft_00, round1_zero], rfl, rfl⟩

theorem browseDiscount_eq_floor {cp lp : Int} (h0 : 0 < cp) (h1 : cp < lp) :
    browseDiscount cp lp = ⌊(((lp : ℚ) - cp) / lp) * 100⌋ := by
  unfold browseDiscount
  apply pyInt_of_nonneg
  have hlp : (0 : ℚ) < lp := by exact_mod_cast lt_trans h0 h1
  have hle : (cp : ℚ) ≤ lp := by exact_mod_cast le_of_lt h1
  have hsub : (0 : ℚ) ≤ (lp : ℚ) - cp := by linarith
  exact mul_nonneg (div_nonneg hsub hlp.le) (by norm_num)

theorem browseDiscount_bounds {cp lp : Int} (h0 : 0 < cp) (h1 : cp < lp) :
    0 ≤ browseDiscount cp lp ∧ browseDiscount cp lp ≤ 100 := by
  have hlp : (0 : ℚ) < lp := by exact_mod_cast lt_trans h0 h1
  have hcp : (0 : ℚ) < cp := by exact_mod_cast h0
  have hlt : (cp : ℚ) < lp := by exact_mod_cast h1
  rw [browseDiscount_eq_floor h0 h1]
  constructor
  · apply Int.floor_nonneg.mpr
    have hsub : (0 : ℚ) ≤ (lp : ℚ) - cp := by linarith
    exact mul_nonneg (div_nonneg hsub hlp.le) (by norm_num)
  · have hd : ((lp : ℚ) - cp) / lp < 1 := by
      rw [div_lt_one hlp]
      linarith
    have hv : (((lp : ℚ) - cp) / lp) * 100 < 100 := by
      have := mul_lt_mul_of_pos_right hd (show (0 : ℚ) < 100 by norm_num)
      linarith
    have hfl := Int.floor_lt.mpr (show (((lp : ℚ) - cp) / lp) * 100 < ((100 : Int) : ℚ) by
      exact_mod_cast hv)
    omega

/-! ### Claim theorems -/

/-- C1 counterexample: the browse record `c1rec` (no asin, negative
`current[0]`, raw rating 60) survives normalization and yields a candidate
whose product id is absent, whose price is negative, whose discount is 200
and whose rating is 6 — violating every invariant the claim asserts. -/
theorem c1_counterexample :
    parseBrowseDeal c1rec = some c1c ∧ c1c.asin = none ∧
    c1c.current_price = -1 ∧ c1c.discount_percent = 200 ∧ c1c.rating = 6 :=
  ⟨c1rec_parses, rfl, rfl, rfl, rfl⟩

/-- C1 (amended): normalization only enforces the explicit lower-bound
filters — `discount_percent ≥ MIN_DISCOUNT`, `rating ≥ MIN_RATING`,
`review_count ≥ MIN_REVIEWS` — together with non-zero raw prices; it does not
check that the asin is present, that prices are positive, that the discount
is at most 100 or that the rating is at most 5.  When the raw current price
is positive the browse candidate does satisfy `current_price > 0` and
`0 ≤ discount_percent ≤ 100`, and a raw rating of at most 50 yields
`rating ≤ 5`. -/
theorem c1_amended :
    (∀ (now : Int) (deal : RawLightningDeal) (c : Candidate),
      parseLightningDeal now deal = some c →
      MIN_DISCOUNT ≤ c.discount_percent ∧ MIN_RATING ≤ c.rating ∧
      MIN_REVIEWS ≤ c.review_count ∧
      (0 < deal.dealPrice → 0 < c.current_price) ∧
      (deal.rating ≤ 50 → c.rating ≤ 5)) ∧
    (∀ (deal : RawBrowseDeal) (c : Candidate),
      parseBrowseDeal deal = some c →
      MIN_DISCOUNT ≤ c.discount_percent ∧ MIN_RATING ≤ c.rating ∧
      MIN_REVIEWS ≤ c.review_count ∧
      (deal.rating ≤ 50 → c.rating ≤ 5) ∧
      (∀ cp, deal.c0 = some cp → 0 < cp →
        0 < c.current_price ∧ 0 ≤ c.discount_percent ∧ c.discount_percent ≤ 100)) := by
  constructor
  · intro now deal c h
    obtain ⟨-, hdq, hdl, hcp, -, hrq, hrl, hrc, hrv⟩ := parseLightningDeal_fields h
    refine ⟨by rw [hdq]; exact hdl, hrl, by rw [hrc]; exact hrv, ?_, ?_⟩
    · intro hpos
      rw [hcp]
      have hq : (0 : ℚ) < deal.dealPrice := by exact_mod_cast hpos
      exact div_pos hq (by norm_num)
    · intro h50
      rw [hrq]
      exact ratingOf_le_five h50
  · intro deal c h
    obtain ⟨cp, lp, h0, h1, hcp0, hlp0, hlt, -, hdq, hdl, hcpr, hrq, hrl, hrc, hrv⟩ :=
      parseBrowseDeal_fields h
    refine ⟨hdl, hrl, by rw [hrc]; exact hrv, ?_, ?_⟩
    · intro h50
      rw [hrq]
      exact ratingOf_le_five h50
    · intro cpw hc0 hpos
      rw [h0] at hc0
      injection hc0 with e
      subst e
      have hb := browseDiscount_bounds hpos hlt
      refine ⟨?_, by rw [hdq]; exact hb.1, by rw [hdq]; exact hb.2⟩
      rw [hcpr]
      have hq : (0 : ℚ) < cp := by exact_mod_cast hpos
      exact div_pos hq (by norm_num)

/-- Witness for C1 (amended) at the concrete records `wLrec` and `wBrec`. -/
theorem c1_amended_witness :
    (MIN_DISCOUNT ≤ wLc.discount_percent ∧ MIN_RATING ≤ wLc.rating) ∧
    (0 < wBc.current_price ∧ 0 ≤ wBc.discount_percent ∧ wBc.discount_percent ≤ 100) :=
  ⟨⟨(c1_amended.1 0 wLrec wLc wLrec_parses).1, (c1_amended.1 0 wLrec wLc wLrec_parses).2.1⟩,
   (c1_amended.2 wBrec wBc wBrec_parses).2.2.2.2 1000 rfl (by norm_num)⟩

/-- C2 counterexample: for `current = [100, 300]` the exact discount is
66.67%; the code computes 66 (Python `int` truncation) where the claimed
`round` gives 67. -/
theorem c2_counterexample :
    parseBrowseDeal c2rec = some c2c ∧ c2c.discount_percent = 66 ∧
    roundNearest ((((300 : ℚ) - 100) / 300) * 100) = 67 ∧ (66 : Int) ≠ 67 :=
  ⟨c2rec_parses, rfl, by norm_num [roundNearest, Int.floor_eq_iff], by decide⟩

/-- C2 (amended): when the browse source delivers positive reference and
current prices, the normalized discount is the *truncation* (floor, for this
nonnegative value) of `(reference - current) / reference * 100`, not the
nearest-integer rounding. -/
theorem c2_amended (deal : RawBrowseDeal) (c : Candidate) (cp lp : Int)
    (h0 : deal.c0 = some cp) (h1 : deal.c1 = some lp) (hpos : 0 < cp)
    (h : parseBrowseDeal deal = some c) :
    c.discount_percent = ⌊(((lp : ℚ) - cp) / lp) * 100⌋ ∧
    0 ≤ c.discount_percent ∧ c.discount_percent ≤ 100 := by
  obtain ⟨cpw, lpw, h0w, h1w, hcp0, hlp0, hlt, -, hdq, hdl, hcpr, hrq, hrl, hrc, hrv⟩ :=
    parseBrowseDeal_fields h
  rw [h0] at h0w
  rw [h1] at h1w
  injection h0w with e0
  injection h1w with e1
  subst e0
  subst e1
  have hb := browseDiscount_bounds hpos hlt
  exact ⟨by rw [hdq]; exact browseDiscount_eq_floor hpos hlt,
    by rw [hdq]; exact hb.1, by rw [hdq]; exact hb.2⟩

/-- Witness for C2 (amended) at the concrete record `wBrec`. -/
theorem c2_amended_witness :
    wBc.discount_percent =
      ⌊((((2000 : Int) : ℚ) - ((1000 : Int) : ℚ)) / ((2000 : Int) : ℚ)) * 100⌋ ∧
    0 ≤ wBc.discount_percent ∧ wBc.discount_percent ≤ 100 :=
  c2_amended wBrec wBc 1000 2000 rfl rfl (by norm_num) wBrec_parses

/-- C6 counterexample: the lightning deal `c6rec`, priced at 100000 minor
units (1000€, far above `MAX_PRICE = 40000`), survives
`_parse_lightning_deals` — the price bounds are not enforced for flash
candidates. -/
theorem c6_counterexample :
    parseLightningDeal 0 c6rec = some c6c ∧
    c6c.current_price * 100 = 100000 ∧ (MAX_PRICE : ℚ) < 100000 :=
  ⟨c6rec_parses, by norm_num [c6c], by norm_num [MAX_PRICE]⟩

/-- C6 (amended): client-side parsing enforces the discount, rating and
review-count thresholds for both lightning and browse candidates (with no
flash waiver of the discount threshold), but no client-side price bounds; the
browse price bounds `[MIN_PRICE, MAX_PRICE]` (and discount range and minimum
rating) are only requested upstream in the Keepa `/deal` query. -/
theorem c6_amended :
    (∀ (now : Int) (deal : RawLightningDeal) (c : Candidate),
      parseLightningDeal now deal = some c →
      MIN_DISCOUNT ≤ c.discount_percent ∧ MIN_RATING ≤ c.rating ∧
      MIN_REVIEWS ≤ c.review_count) ∧
    (∀ (deal : RawBrowseDeal) (c : Candidate),
      parseBrowseDeal deal = some c →
      MIN_DISCOUNT ≤ c.discount_percent ∧ MIN_RATING ≤ c.rating ∧
      MIN_REVIEWS ≤ c.review_count) ∧
    (∀ cats, (browsingQuery cats).deltaPercentRange = [MIN_DISCOUNT, 100] ∧
      (browsingQuery cats).currentRange = [MIN_PRICE, MAX_PRICE] ∧
      (browsingQuery cats).minRating = 35) := by
  refine ⟨?_, ?_, ?_⟩
  · intro now deal c h
    obtain ⟨-, hdq, hdl, -, -, -, hrl, hrc, hrv⟩ := parseLightningDeal_fields h
    exact ⟨by rw [hdq]; exact hdl, hrl, by rw [hrc]; exact hrv⟩
  · intro deal c h
    obtain ⟨cp, lp, -, -, -, -, -, -, -, hdl, -, -, hrl, hrc, hrv⟩ := parseBrowseDeal_fields h
    exact ⟨hdl, hrl, by rw [hrc]; exact hrv⟩
  · intro cats
    refine ⟨rfl, rfl, ?_⟩
    show pyInt (MIN_RATING * 10) = 35
    rw [show MIN_RATING * 10 = (35 : ℚ) by norm_num [MIN_RATING],
      pyInt_of_nonneg (by norm_num)]
    norm_num

/-- Witness for C6 (amended) at the concrete record `wLrec`. -/
theorem c6_amended_witness :
    (MIN_DISCOUNT ≤ wLc.discount_percent ∧ MIN_RATING ≤ wLc.rating ∧
      MIN_REVIEWS ≤ wLc.review_count) ∧
    (browsingQuery []).currentRange = [MIN_PRICE, MAX_PRICE] :=
  ⟨c6_amended.1 0 wLrec wLc wLrec_parses, (c6_amended.2.2 []).2.1⟩

/-- C8: after `mark_as_posted(id, t)` the product is flagged as posted (and
hence ineligible) exactly when `now - t < cooldown` — eligible at the
boundary `now - t = cooldown` — and a product with no ledger row is never
flagged as posted. -/
theorem c8_theorem (ledger : Ledger) (a : String) (t hours now : ℚ) :
    (is_product_posted (mark_as_posted ledger (some a) t) (some a) hours now = true ↔
      now - t < hours) ∧
    (ledger a = none → is_product_posted ledger (some a) hours now = false) := by
  constructor
  · simp only [is_product_posted, mark_as_posted]
    simp only [if_true, decide_eq_true_eq]
    constructor
    · intro h
      linarith
    · intro h
      linarith
  · intro hnone
    simp only [is_product_posted]
    rw [hnone]

/-- Witness for C8 at `id = "X"`, `t = 0`, `cooldown = 48`: posted at
`now = 10` (10 < 48), no longer posted at `now = 48` (the boundary), and an
unrecorded id is not posted. -/
theorem c8_theorem_witness :
    is_product_posted (mark_as_posted emptyLedger (some "X") 0) (some "X") 48 10 = true ∧
    is_product_posted (mark_as_posted emptyLedger (some "X") 0) (some "X") 48 48 = false ∧
    is_product_posted emptyLedger (some "X") 48 10 = false :=
  ⟨(c8_theorem emptyLedger "X" 0 48 10).1.mpr (by norm_num),
   by
    have h := (c8_theorem emptyLedger "X" 0 48 48).1
    have : ¬(48 - (0 : ℚ) < 48) := by norm_num
    cases hb : is_product_posted (mark_as_posted emptyLedger (some "X") 0) (some "X") 48 48
    · rfl
    · exact absurd (h.mp hb) this,
   (c8_theorem emptyLedger "X" 0 48 10).2 rfl⟩

/-- C9: when the cycle's start hour lies outside `[START_HOUR, END_HOUR)`,
`publish_next_deal` returns immediately: no fetch, no publish, and the whole
system state (rotation index, ledger, cache) is unchanged — the active-hours
gate is the first statement of the cycle. -/
theorem c9_theorem (env : FetchEnv) (pubOk : String → Candidate → Bool)
    (hour : Int) (now : ℚ) (draw : Int) (st : SysState)
    (h : ¬(START_HOUR ≤ hour ∧ hour < END_HOUR)) :
    publish_next_deal env pubOk hour now draw st = ⟨st, false, none⟩ := by
  unfold publish_next_deal
  rw [if_pos h]

/-- Witness for C9 at hour 2 (before `START_HOUR = 7`). -/
theorem c9_theorem_witness :
    publish_next_deal env3 (fun _ _ => true) 2 10 50 st3 = ⟨st3, false, none⟩ :=
  c9_theorem env3 (fun _ _ => true) 2 10 50 st3 (by decide)

/-! ### Orchestrator evaluation helpers -/

theorem ledger3_X1 : ledger3 "X1" = some 0 := by
  simp [ledger3, mark_as_posted, emptyLedger]

theorem X1_posted : is_product_posted ledger3 (some "X1") 48 10 = true := by
  simp [is_product_posted, ledger3, mark_as_posted, emptyLedger]
  norm_num

theorem select_X1_none : select_best_deal ledger3 10 [X1c] = none := by
  unfold select_best_deal sortByScoreDesc
  simp only [List.foldr, insertDesc]
  rw [List.find?_cons_of_neg _ (by simp [X1c, X1_posted])]
  rfl

theorem fetch3 : fetch_deals_for_channel env3 emptyCache 10 50 "tech" =
    ([X1c], cache_data emptyCache "lightning_deals" [X1c] 10) := by
  unfold fetch_deals_for_channel
  rw [if_pos (by decide), show get_cached_data emptyCache "lightning_deals" (1/2) 10 = none
    from rfl]
  simp [env3]

theorem select3_cycle : select_best_deal st3.ledger 10
    (fetch_deals_for_channel env3 st3.cache 10 50
      (st3.channel_rotation.getD st3.current_channel_index "")).1 = none := by
  rw [show st3.channel_rotation.getD st3.current_channel_index "" = "tech" from rfl,
    show st3.cache = emptyCache from rfl, fetch3]
  exact select_X1_none

/-- When selection finds no eligible candidate, the cycle publishes nothing
and the ledger is untouched. -/
theorem cycle_select_none (env : FetchEnv) (pubOk : String → Candidate → Bool)
    (hour : Int) (now : ℚ) (draw : Int) (st : SysState)
    (hsel : select_best_deal st.ledger now
      (fetch_deals_for_channel env st.cache now draw
        (st.channel_rotation.getD st.current_channel_index "")).1 = none) :
    (publish_next_deal env pubOk hour now draw st).published = none ∧
    (publish_next_deal env pubOk hour now draw st).state.ledger = st.ledger := by
  unfold publish_next_deal
  by_cases hh : ¬(START_HOUR ≤ hour ∧ hour < END_HOUR)
  · rw [if_pos hh]
    exact ⟨rfl, rfl⟩
  · rw [if_neg hh]
    dsimp only
    by_cases hfc : (fetch_deals_for_channel env st.cache now draw
        (st.channel_rotation.getD st.current_channel_index "")).1 = []
    · rw [if_pos hfc]
      exact ⟨rfl, rfl⟩
    · rw [if_neg hfc, hsel]
      exact ⟨rfl, rfl⟩

theorem selectW : select_best_deal emptyLedger 0 [selA] = some selA := by
  unfold select_best_deal sortByScoreDesc
  simp only [List.foldr, insertDesc]
  rw [List.find?_cons_of_pos _ (by simp [is_product_posted, emptyLedger, selA])]

theorem fetchW : fetch_deals_for_channel wEnv emptyCache 0 50 "tech" =
    ([selA], cache_data emptyCache "lightning_deals" [selA] 0) := by
  unfold fetch_deals_for_channel
  rw [if_pos (by decide), show get_cached_data emptyCache "lightning_deals" (1/2) 0 = none
    from rfl]
  simp [wEnv]

theorem selectW_cycle : select_best_deal wSt.ledger 0
    (fetch_deals_for_channel wEnv wSt.cache 0 50
      (wSt.channel_rotation.getD wSt.current_channel_index "")).1 = some selA := by
  rw [show wSt.channel_rotation.getD wSt.current_channel_index "" = "tech" from rfl,
    show wSt.cache = emptyCache from rfl, fetchW]
  exact selectW

/-! ### Claim theorems: selector and orchestrator -/

/-- C3 counterexample: with "X1" published at `t0 = 0`, a 48h cooldown and a
cycle at `t0 + 10h` whose only quality-passing candidate is "X1", the
selection finds zero eligible candidates and the cycle simply ends: nothing
is published (no `reset_all` exists in the code, no retry happens, "X1" is
not re-posted) and the ledger still carries the original entry. -/
theorem c3_counterexample :
    select_best_deal st3.ledger 10 [X1c] = none ∧
    (publish_next_deal env3 (fun _ _ => true) 12 10 50 st3).published = none ∧
    (publish_next_deal env3 (fun _ _ => true) 12 10 50 st3).state.ledger "X1" = some 0 := by
  have h := cycle_select_none env3 (fun _ _ => true) 12 10 50 st3 select3_cycle
  exact ⟨select_X1_none, h.1, by rw [h.2]; exact ledger3_X1⟩

/-- C3 (amended): in every cycle in which, after quality filtering, zero
candidates are eligible under the deduplication cooldown, the orchestrator
ends the cycle without publishing and without touching the ledger; there is
no `reset_all`, no retry, and no re-post of the previously posted
candidate. -/
theorem c3_amended (env : FetchEnv) (pubOk : String → Candidate → Bool)
    (hour : Int) (now : ℚ) (draw : Int) (st : SysState)
    (hsel : select_best_deal st.ledger now
      (fetch_deals_for_channel env st.cache now draw
        (st.channel_rotation.getD st.current_channel_index "")).1 = none) :
    (publish_next_deal env pubOk hour now draw st).published = none ∧
    (publish_next_deal env pubOk hour now draw st).state.ledger = st.ledger :=
  cycle_select_none env pubOk hour now draw st hsel

/-- Witness for C3 (amended) at the scenario-C input. -/
theorem c3_amended_witness :
    (publish_next_deal env3 (fun _ _ => true) 12 10 50 st3).published = none :=
  (c3_amended env3 (fun _ _ => true) 12 10 50 st3 select3_cycle).1

/-- C4 counterexample: `selA` and `selB` have equal score 33 but `selB` has
the higher discount (30 vs 20); the selector still returns `selA` — ties are
broken by first-seen order alone, never by discount. -/
theorem c4_counterexample :
    select_best_deal emptyLedger 0 [selA, selB] = some selA ∧
    score selA = score selB ∧ selA.discount_percent < selB.discount_percent := by
  have hA : score selA = 33 := by norm_num [score, selA]
  have hB : score selB = 33 := by norm_num [score, selB]
  refine ⟨?_, by rw [hA, hB], by decide⟩
  unfold select_best_deal sortByScoreDesc
  simp only [List.foldr, insertDesc]
  rw [hA, hB, if_pos (le_refl (33 : ℚ))]
  rw [List.find?_cons_of_pos _ (by simp [is_product_posted, emptyLedger, selA])]

/-- C4 (amended): the selector returns `none` on empty input and never
raises; it is a pure function of the candidate list, the ledger and the
clock, hence deterministic; but a tie in the composite score is broken by
first-seen (stable-sort) order alone — `discount_percent` plays no role in
tie-breaking. -/
theorem c4_amended :
    (∀ (ledger : Ledger) (now : ℚ), select_best_deal ledger now [] = none) ∧
    (∀ (ledger : Ledger) (now : ℚ) (a b : Candidate), score a = score b →
      is_product_posted ledger a.asin 48 now = false →
      select_best_deal ledger now [a, b] = some a) := by
  constructor
  · intro ledger now
    rfl
  · intro ledger now a b hs hp
    unfold select_best_deal sortByScoreDesc
    simp only [List.foldr, insertDesc]
    rw [if_pos (le_of_eq hs.symm)]
    rw [List.find?_cons_of_pos _ (by simp [hp])]

/-- Witness for C4 (amended): empty input and the concrete tie `[selA, selB]`. -/
theorem c4_amended_witness :
    select_best_deal emptyLedger 0 [] = none ∧
    select_best_deal emptyLedger 0 [selA, selB] = some selA :=
  ⟨c4_amended.1 emptyLedger 0,
   c4_amended.2 emptyLedger 0 selA selB (by norm_num [score, selA, selB])
     (by simp [is_product_posted, emptyLedger, selA])⟩

/-- C5: when the cycle reaches a selected deal, the publish outcome alone
decides the ledger: `mark_as_posted` runs exactly when `send_deal` returned
true; on failure the ledger is unchanged and the cycle ends with no
fallback attempt. -/
theorem c5_theorem (env : FetchEnv) (pubOk : String → Candidate → Bool)
    (hour : Int) (now : ℚ) (draw : Int) (st : SysState) (deal : Candidate)
    (hh : START_HOUR ≤ hour ∧ hour < END_HOUR)
    (hsel : select_best_deal st.ledger now
      (fetch_deals_for_channel env st.cache now draw
        (st.channel_rotation.getD st.current_channel_index "")).1 = some deal) :
    ((publish_next_deal env pubOk hour now draw st).published = some deal ↔
      pubOk (st.channel_rotation.getD st.current_channel_index "") deal = true) ∧
    (pubOk (st.channel_rotation.getD st.current_channel_index "") deal = false →
      (publish_next_deal env pubOk hour now draw st).published = none) ∧
    (publish_next_deal env pubOk hour now draw st).state.ledger =
      (if pubOk (st.channel_rotation.getD st.current_channel_index "") deal
       then mark_as_posted st.ledger deal.asin now else st.ledger) := by
  unfold publish_next_deal
  rw [if_neg (not_not_intro hh)]
  dsimp only
  have hfc : (fetch_deals_for_channel env st.cache now draw
      (st.channel_rotation.getD st.current_channel_index "")).1 ≠ [] := by
    intro hemp
    rw [hemp] at hsel
    exact absurd hsel (by simp [select_best_deal, sortByScoreDesc])
  rw [if_neg hfc, hsel]
  dsimp only
  by_cases hp : pubOk (st.channel_rotation.getD st.current_channel_index "") deal = true
  · rw [if_pos hp, if_pos hp]
    refine ⟨iff_of_true rfl hp, ?_, rfl⟩
    intro hfalse
    rw [hfalse] at hp
    exact absurd hp (by decide)
  · rw [if_neg hp, if_neg hp]
    exact ⟨iff_of_false (by simp) hp, fun _ => rfl, rfl⟩

/-- Witness for C5: the same concrete cycle run once with a failing publish
(nothing recorded) and once with a succeeding publish (deal recorded). -/
theorem c5_theorem_witness :
    ((publish_next_deal wEnv (fun _ _ => false) 12 0 50 wSt).published = none ∧
      (publish_next_deal wEnv (fun _ _ => false) 12 0 50 wSt).state.ledger = wSt.ledger) ∧
    (publish_next_deal wEnv (fun _ _ => true) 12 0 50 wSt).published = some selA := by
  have hfail := c5_theorem wEnv (fun _ _ => false) 12 0 50 wSt selA (by decide) selectW_cycle
  have hok := c5_theorem wEnv (fun _ _ => true) 12 0 50 wSt selA (by decide) selectW_cycle
  refine ⟨⟨hfail.2.1 rfl, ?_⟩, hok.1.mpr rfl⟩
  rw [hfail.2.2]
  simp

/-- C7 counterexample: with the lightning fetch returning nothing (e.g. rate
limited) and the browse feed holding `selA`, a lightning-mode cycle returns
the empty deal list without ever consulting the browse mode. -/
theorem c7_counterexample :
    fetch_deals_for_channel env7 emptyCache 0 50 "tech" = ([], emptyCache) ∧
    env7.browsingResult (CATEGORY_MAP "tech") = [selA] := by
  constructor
  · unfold fetch_deals_for_channel
    rw [if_pos (by decide), show get_cached_data emptyCache "lightning_deals" (1/2) 0 = none
      from rfl]
    simp [env7]
  · rfl

/-- C7 (amended): the orchestrator uses a single randomly chosen source mode
per cycle; when that mode yields zero candidates (fetch failure or empty
feed) the cycle ends as a no-op without raising — the other mode is never
tried, whatever its feed would have returned. -/
theorem c7_amended (env : FetchEnv) (pubOk : String → Candidate → Bool)
    (hour : Int) (now : ℚ) (draw : Int) (st : SysState) (channel : String)
    (hdraw : draw ≤ LIGHTNING_PERCENTAGE)
    (hmiss : get_cached_data st.cache "lightning_deals" (1/2) now = none)
    (hempty : env.lightningResult = []) :
    fetch_deals_for_channel env st.cache now draw channel = ([], st.cache) ∧
    (publish_next_deal env pubOk hour now draw st).published = none := by
  have hfetch : ∀ ch, fetch_deals_for_channel env st.cache now draw ch = ([], st.cache) := by
    intro ch
    unfold fetch_deals_for_channel
    rw [if_pos hdraw, hmiss]
    dsimp only
    rw [hempty]
    rw [if_pos rfl]
  refine ⟨hfetch channel, ?_⟩
  unfold publish_next_deal
  by_cases hh : ¬(START_HOUR ≤ hour ∧ hour < END_HOUR)
  · rw [if_pos hh]
  · rw [if_neg hh]
    dsimp only
    rw [hfetch (st.channel_rotation.getD st.current_channel_index "")]
    dsimp only
    rw [if_pos rfl]

/-- Witness for C7 (amended) at the concrete environment `env7`. -/
theorem c7_amended_witness :
    fetch_deals_for_channel env7 wSt.cache 0 50 "tech" = ([], wSt.cache) ∧
    (publish_next_deal env7 (fun _ _ => true) 12 0 50 wSt).published = none :=
  c7_amended env7 (fun _ _ => true) 12 0 50 wSt "tech" (by decide) rfl rfl

/-- C10: in lightning mode `fetch_deals_for_channel` is independent of its
channel argument — same request, same `"lightning_deals"` cache key, same
result for every channel — and a non-empty lightning result cached at time
`t` is served unchanged (to any channel, from any environment) at every
`now` with `now - t < 1/2` hour. -/
theorem c10_theorem :
    (∀ (env : FetchEnv) (cache : Cache) (now : ℚ) (draw : Int) (ch1 ch2 : String),
      draw ≤ LIGHTNING_PERCENTAGE →
      fetch_deals_for_channel env cache now draw ch1 =
        fetch_deals_for_channel env cache now draw ch2) ∧
    (∀ (env env2 : FetchEnv) (cache : Cache) (t now : ℚ) (draw draw2 : Int)
      (ch ch2 : String),
      draw ≤ LIGHTNING_PERCENTAGE → draw2 ≤ LIGHTNING_PERCENTAGE →
      get_cached_data cache "lightning_deals" (1/2) t = none →
      env.lightningResult ≠ [] →
      now - t < 1/2 →
      fetch_deals_for_channel env2
          (fetch_deals_for_channel env cache t draw ch).2 now draw2 ch2 =
        (env.lightningResult, (fetch_deals_for_channel env cache t draw ch).2)) := by
  constructor
  · intro env cache now draw ch1 ch2 hdraw
    unfold fetch_deals_for_channel
    rw [if_pos hdraw, if_pos hdraw]
  · intro env env2 cache t now draw draw2 ch ch2 h1 h2 hmiss hne hfresh
    have hfetch1 : fetch_deals_for_channel env cache t draw ch =
        (env.lightningResult, cache_data cache "lightning_deals" env.lightningResult t) := by
      unfold fetch_deals_for_channel
      rw [if_pos h1, hmiss]
      dsimp only
      rw [if_neg hne]
    have hhit : get_cached_data (cache_data cache "lightning_deals" env.lightningResult t)
        "lightning_deals" (1/2) now = some env.lightningResult := by
      unfold get_cached_data cache_data
      rw [if_pos rfl]
      dsimp only
      rw [if_pos (by linarith)]
    rw [hfetch1]
    unfold fetch_deals_for_channel
    rw [if_pos h2, hhit]

/-- Witness for C10: channels "tech" and "moda" get identical lightning
results, and the lightning list cached by a "tech" cycle at `t = 0` is served
to a "moda" cycle at `now = 1/4` h even from an environment whose own
lightning feed is empty. -/
theorem c10_theorem_witness :
    fetch_deals_for_channel env3 emptyCache 10 50 "tech" =
      fetch_deals_for_channel env3 emptyCache 10 50 "moda" ∧
    fetch_deals_for_channel env7 (fetch_deals_for_channel env3 emptyCache 0 50 "tech").2
        (1/4) 60 "moda" =
      ([X1c], (fetch_deals_for_channel env3 emptyCache 0 50 "tech").2) := by
  refine ⟨c10_theorem.1 env3 emptyCache 10 50 "tech" "moda" (by decide), ?_⟩
  have h := c10_theorem.2 env3 env7 emptyCache 0 (1/4) 50 60 "tech" "moda"
    (by decide) (by decide) rfl (by simp [env3]) (by norm_num)
  simpa [env3] using h

end Vucciaro
